import Mathlib

/-!
# Giftunity — User Directory & Localization Gateway: a shallow embedding

This file embeds the request handlers of `Giftunity-backend/src/server.js`
and the client adapter of `Giftunity-bot/src/bot.js` as executable Lean
definitions, and proves (or refutes) the specification's claims about them.

Modelling conventions:
* The `users` table is a `List UserRecord`; `SELECT * FROM users WHERE id = $1`
  is `List.find?` on the id column, `UPDATE ... WHERE id = $1` maps the update
  over the matching rows, `INSERT` appends (subject to the `id` primary-key
  uniqueness constraint where the interleaved model needs it).
* SQL `NOW()` is an abstract `Nat` timestamp passed to each call; sequential
  calls receive non-decreasing timestamps.
* JavaScript truthiness tests (`!id`, `!first_name`, `x || d`) are modelled
  on `Option` values exactly: absent, `0` and `""` are falsy.
* The handlers also report how many storage reads/writes they performed, so
  that "no storage access before validation" style claims are statable.
-/

namespace Giftunity

/-- The request body of `POST /api/user/findOrCreate` as destructured by the
handler (`server.js` lines 325–337): the Telegram identity payload. Fields
absent from the JSON body are `none`. -/
structure Payload where
  id : Option Int
  is_bot : Option Bool
  first_name : Option String
  last_name : Option String
  username : Option String
  language_code : Option String
  is_premium : Option Bool
  added_to_attachment_menu : Option Bool
  can_join_groups : Option Bool
  can_read_all_group_messages : Option Bool
  supports_inline_queries : Option Bool
deriving DecidableEq, Repr

/-- One row of the `users` table (schema created in `server.js` lines 54–70).
`first_name` is `NOT NULL`; nullable columns are `Option`; `preferred_language`
has column default `'en'`; `created_at` / `updated_at` default to `NOW()`. -/
structure UserRecord where
  id : Int
  is_bot : Option Bool
  first_name : String
  last_name : Option String
  username : Option String
  language_code : Option String
  is_premium : Option Bool
  added_to_attachment_menu : Option Bool
  can_join_groups : Option Bool
  can_read_all_group_messages : Option Bool
  supports_inline_queries : Option Bool
  preferred_language : String
  created_at : Nat
  updated_at : Nat
deriving DecidableEq, Repr

/-- JavaScript truthiness of the destructured `id` field: `!id` is true for
`undefined`, `null` and `0`. -/
def idTruthy : Option Int → Bool
  | some n => n != 0
  | none => false

/-- JavaScript truthiness of the destructured `first_name` field: `!first_name`
is true for `undefined`, `null` and the empty string. -/
def nameTruthy : Option String → Bool
  | some s => s != ""
  | none => false

/-- The id carried by a payload that passed the truthiness check. -/
def payloadId (p : Payload) : Int := p.id.getD 0

/-- The spec's validity precondition on a payload: `id` present and a positive
integer, `first_name` present and non-empty. -/
def validPayload (p : Payload) : Bool :=
  (match p.id with
   | some n => decide (0 < n)
   | none => false) &&
  (match p.first_name with
   | some s => s != ""
   | none => false)

/-- The users table, ordered by insertion. -/
abbrev Db := List UserRecord

/-- First row returned by `SELECT * FROM users WHERE id = $1`. -/
def lookupUser (db : Db) (i : Int) : Option UserRecord :=
  db.find? (fun r => r.id == i)

/-- The row produced by the handler's `UPDATE users SET ... WHERE id = $1`
(`server.js` lines 354–369): every platform-sourced field is overwritten from
the payload, `updated_at` is set to `NOW()`, and `id`, `preferred_language`
and `created_at` are untouched. -/
def applyUpdate (r : UserRecord) (p : Payload) (now : Nat) : UserRecord :=
  { r with
    is_bot := p.is_bot
    first_name := p.first_name.getD ""
    last_name := p.last_name
    username := p.username
    language_code := p.language_code
    is_premium := p.is_premium
    added_to_attachment_menu := p.added_to_attachment_menu
    can_join_groups := p.can_join_groups
    can_read_all_group_messages := p.can_read_all_group_messages
    supports_inline_queries := p.supports_inline_queries
    updated_at := now }

/-- The row produced by the handler's `INSERT INTO users (...)` (`server.js`
lines 381–388): the eleven platform fields come from the payload and the
remaining columns take their schema defaults (`preferred_language = 'en'`,
`created_at = updated_at = NOW()`). -/
def newRecord (p : Payload) (now : Nat) : UserRecord :=
  { id := payloadId p
    is_bot := p.is_bot
    first_name := p.first_name.getD ""
    last_name := p.last_name
    username := p.username
    language_code := p.language_code
    is_premium := p.is_premium
    added_to_attachment_menu := p.added_to_attachment_menu
    can_join_groups := p.can_join_groups
    can_read_all_group_messages := p.can_read_all_group_messages
    supports_inline_queries := p.supports_inline_queries
    preferred_language := "en"
    created_at := now
    updated_at := now }

/-- The response of the `findOrCreate` handler on its non-throwing paths. -/
inductive FocResp where
  /-- success: `res.status(s).json(record)` with a full user row (200 or 201). -/
  | ok (status : Nat) (record : UserRecord)
  /-- rejection: `res.status(400).json(...)` from the validation guard. -/
  | validationError (status : Nat) (error : String)
  /-- A storage-level failure surfaced through the catch branch as a bare
  5xx envelope (only reachable in the interleaved model). -/
  | internalError (status : Nat)
deriving DecidableEq, Repr

/-- Output of one sequential `POST /api/user/findOrCreate` call: the response,
the table afterwards, and how many storage reads/writes were issued. -/
structure FocOut where
  resp : FocResp
  db : Db
  reads : Nat
  writes : Nat
deriving DecidableEq, Repr

/-- The `POST /api/user/findOrCreate` handler (`server.js` lines 323–398),
executed sequentially: validate truthiness of `id` and `first_name` before
touching storage, then SELECT by id, then either UPDATE (status 200) or
INSERT (status 201), returning the written row. -/
def findOrCreate (db : Db) (p : Payload) (now : Nat) : FocOut :=
  if !(idTruthy p.id) || !(nameTruthy p.first_name) then
    { resp := .validationError 400
        "Missing required fields: id and first_name are required"
      db := db, reads := 0, writes := 0 }
  else
    let n := payloadId p
    match lookupUser db n with
    | some r =>
      { resp := .ok 200 (applyUpdate r p now)
        db := db.map (fun q => if q.id == n then applyUpdate q p now else q)
        reads := 1, writes := 1 }
    | none =>
      { resp := .ok 201 (newRecord p now)
        db := db ++ [newRecord p now]
        reads := 1, writes := 1 }

/-! ## Translation service (`GET /api/translations/:lang`) -/

/-- A translation bundle: the flat key/value JSON map served to clients. -/
abbrev Bundle := List (String × String)

/-- What the filesystem holds at `locales/<lang>.json`: the file may be
missing (`fs.readFile` errors), present but unparsable (`JSON.parse` throws),
or a well-formed bundle. -/
inductive FileRead where
  | missing
  | malformed
  | good (bundle : Bundle)
deriving DecidableEq, Repr

/-- The static locale directory: what one read of `locales/<lang>.json`
returns for each language code. -/
abbrev Catalog := String → FileRead

/-- The hard-coded supported-language list (`server.js` line 459 and 506). -/
def supportedLanguages : List String := ["en", "ar", "fa", "ru", "de", "zh"]

/-- The `/^[a-z]{2}$/` regex test of `server.js` line 451: exactly two
lowercase ASCII letters. -/
def isValidLangShape (s : String) : Bool :=
  s.length == 2 && s.toList.all (fun c => decide (97 ≤ c.toNat) && decide (c.toNat ≤ 122))

/-- Responses of the `GET /api/translations/:lang` handler. -/
inductive TransResp where
  /-- success: `res.status(200).json(translations)`. -/
  | ok (status : Nat) (bundle : Bundle)
  /-- the 400 invalid-language-code envelope. -/
  | invalidCode (status : Nat) (error message : String)
  /-- the 404 unsupported-language envelope carrying the supported list. -/
  | unsupported (status : Nat) (error : String) (supported : List String)
  /-- the 500 translation-service-error envelope (read or parse failure). -/
  | serviceError (status : Nat) (error message : String)
deriving DecidableEq, Repr

/-- The `GET /api/translations/:lang` handler (`server.js` lines 446–499).
`readsSoFar` counts the `fs.readFile` calls the process has issued so far; the
returned counter records that this handler reads the file from disk on every
request that passes validation — there is no in-process cache. -/
def getTranslations (fileOf : Catalog) (lang : String) (readsSoFar : Nat) :
    TransResp × Nat :=
  if !(isValidLangShape lang) then
    (.invalidCode 400 "Invalid language code"
       "Language code must be a 2-letter ISO code", readsSoFar)
  else if !(supportedLanguages.contains lang) then
    (.unsupported 404 "Language not supported" supportedLanguages, readsSoFar)
  else
    match fileOf lang with
    | .missing =>
      (.serviceError 500 "Translation service error"
         "Failed to load translation file", readsSoFar + 1)
    | .malformed =>
      (.serviceError 500 "Translation service error"
         "Invalid translation file format", readsSoFar + 1)
    | .good b => (.ok 200 b, readsSoFar + 1)

/-! ## The findOrCreate catch branch (`server.js` lines 399–434) -/

/-- The shape of a storage-driver error as the catch branch inspects it. -/
structure JsError where
  code : Option String
  message : String
deriving DecidableEq, Repr

/-- The error envelope built by the catch branch of the findOrCreate
handler. `details` is the raw driver message, present only in development. -/
structure ErrResp where
  status : Nat
  error : String
  message : String
  details : Option String
deriving DecidableEq, Repr

/-- The catch branch of `POST /api/user/findOrCreate` (`server.js` lines
399–434): map connection failures and a missing table to 503, everything else
to 500; attach the raw driver message as `details` only when
`NODE_ENV === 'development'`. -/
def findOrCreateCatch (env : String) (e : JsError) : ErrResp :=
  let det : Option String := if env == "development" then some e.message else none
  if e.code == some "ECONNREFUSED" || e.code == some "ENOTFOUND" then
    { status := 503, error := "Database connection failed"
      message := "Unable to connect to the database", details := det }
  else if e.code == some "42P01" then
    { status := 503, error := "Database table not found"
      message := "The users table does not exist. Please check database initialization."
      details := det }
  else
    { status := 500, error := "Internal server error"
      message := "Failed to process user data", details := det }

/-! ## Client adapter (`Giftunity-bot/src/bot.js`) -/

/-- Outcome of one Gateway call as seen by the adapter: the parsed response
body, or any failure (timeout, transport error, non-2xx status — axios
rejects on all of these and the adapter rethrows). -/
inductive ApiResult (α : Type) where
  | ok (val : α)
  | fail
deriving DecidableEq, Repr

/-- Property access on a parsed JSON bundle (`translations.key`). -/
def bundleGet (b : Bundle) (k : String) : Option String :=
  (b.find? (fun kv => kv.1 == k)).map (fun kv => kv.2)

/-- JavaScript `x || d` on an optional string: absent and `""` are falsy. -/
def jsOr (x : Option String) (d : String) : String :=
  match x with
  | some s => if s == "" then d else s
  | none => d

/-- The built-in fallback message hard-coded in the adapter
(`bot.js` lines 120 and 124). -/
def builtinFallback : String := "An error occurred. Please try again later."

/-- The `handleBotError` helper (`bot.js` lines 114–126): try to fetch the English
bundle from the Gateway and reply with its `error_generic` entry; if that
call fails too (or the key is falsy), reply with the built-in default. -/
def handleBotError (getTrans : String → ApiResult Bundle) : String :=
  match getTrans "en" with
  | .ok t => jsOr (bundleGet t "error_generic") builtinFallback
  | .fail => builtinFallback

/-- The `/start` command handler (`bot.js` lines 134–158), reduced to the
reply it sends. `focResult` is the outcome of `findOrCreateUser` (we keep
only the `preferred_language` field of the returned record); on any failure
of either Gateway call the catch routes to `handleBotError`. -/
def startHandler (focResult : ApiResult (Option String))
    (getTrans : String → ApiResult Bundle) : String :=
  match focResult with
  | .fail => handleBotError getTrans
  | .ok prefLang =>
    match getTrans (jsOr prefLang "en") with
    | .fail => handleBotError getTrans
    | .ok t => jsOr (bundleGet t "welcome_message") ""

/-! ## Interleaved model of two concurrent findOrCreate calls

The handler issues its SELECT and its INSERT/UPDATE as two separate awaited
queries on a pool of up to 20 connections, with no transaction around them,
so two concurrent requests may interleave between the two queries. Each call
is modelled as two atomic steps: the SELECT records whether the row was
found; the write step then runs the UPDATE or the INSERT against the
*current* table. The INSERT enforces the `id BIGINT PRIMARY KEY` uniqueness
constraint: inserting an id that meanwhile appeared raises a unique-violation
error, which the handler's generic catch turns into a 500 envelope. -/

/-- Progress of one in-flight findOrCreate call (validation already passed). -/
inductive Phase where
  | start
  | selected (found : Bool)
  | done (resp : FocResp)
deriving DecidableEq, Repr

/-- Joint state of the table and two in-flight calls. -/
structure ConcState where
  db : Db
  ph0 : Phase
  ph1 : Phase
deriving DecidableEq, Repr

/-- Advance one call by one atomic storage step (see section comment). -/
def stepCall (p : Payload) (now : Nat) (db : Db) : Phase → Phase × Db
  | .start => (.selected (lookupUser db (payloadId p)).isSome, db)
  | .selected true =>
    match lookupUser db (payloadId p) with
    | some r =>
      (.done (.ok 200 (applyUpdate r p now)),
       db.map (fun q => if q.id == payloadId p then applyUpdate q p now else q))
    | none => (.done (.internalError 500), db)
  | .selected false =>
    if (lookupUser db (payloadId p)).isSome then
      (.done (.internalError 500), db)
    else
      (.done (.ok 201 (newRecord p now)), db ++ [newRecord p now])
  | .done r => (.done r, db)

/-- Run a schedule over two concurrent calls with the same payload:
`false` advances call 0, `true` advances call 1. -/
def runSched (p : Payload) (now : Nat) : List Bool → ConcState → ConcState
  | [], st => st
  | c :: rest, st =>
    if c then
      let (ph, db) := stepCall p now st.db st.ph1
      runSched p now rest { db := db, ph0 := st.ph0, ph1 := ph }
    else
      let (ph, db) := stepCall p now st.db st.ph0
      runSched p now rest { db := db, ph0 := ph, ph1 := st.ph1 }

/-- Number of stored rows carrying a given id. -/
def countId (db : Db) (i : Int) : Nat :=
  (db.filter (fun r => r.id == i)).length

/-! ## Basic lemmas about the findOrCreate handler -/

theorem applyUpdate_id (r : UserRecord) (p : Payload) (t : Nat) :
    (applyUpdate r p t).id = r.id := rfl

theorem newRecord_id (p : Payload) (t : Nat) :
    (newRecord p t).id = payloadId p := rfl

/-- Re-running the UPDATE with the same payload only moves `updated_at`. -/
theorem applyUpdate_applyUpdate (r : UserRecord) (p : Payload) (t t' : Nat) :
    applyUpdate (applyUpdate r p t) p t' = { applyUpdate r p t with updated_at := t' } := rfl

/-- Running the UPDATE with the payload that produced a fresh row only moves
`updated_at`. -/
theorem applyUpdate_newRecord (p : Payload) (t t' : Nat) :
    applyUpdate (newRecord p t) p t' = { newRecord p t with updated_at := t' } := rfl

/-- Looking up the updated id after an UPDATE sweep returns the updated row. -/
theorem lookupUser_map_update (db : Db) (n : Int) (p : Payload) (t : Nat) :
    lookupUser (db.map (fun q => if q.id == n then applyUpdate q p t else q)) n =
      (lookupUser db n).map (fun r => applyUpdate r p t) := by
  induction db with
  | nil => rfl
  | cons r rest ih =>
    simp only [List.map_cons]
    by_cases h : r.id = n
    · have hb : (r.id == n) = true := beq_iff_eq.mpr h
      simp [lookupUser, hb, List.find?_cons_of_pos, applyUpdate_id]
    · have hb : ¬((r.id == n) = true) := by simp [h]
      rw [if_neg hb]
      simp only [lookupUser] at ih ⊢
      rw [List.find?_cons_of_neg (p := fun q : UserRecord => q.id == n) _ hb,
        List.find?_cons_of_neg (p := fun q : UserRecord => q.id == n) _ hb]
      exact ih

/-- An UPDATE sweep for an id that is not stored leaves the table unchanged. -/
theorem map_update_of_none (db : Db) (n : Int) (f : UserRecord → UserRecord)
    (h : lookupUser db n = none) :
    db.map (fun q => if q.id == n then f q else q) = db := by
  have h' := List.find?_eq_none.mp h
  calc db.map (fun q => if q.id == n then f q else q)
      = db.map id := List.map_congr_left (fun q hq => by simp [h' q hq])
    _ = db := List.map_id db

/-- A payload satisfying the spec's validity precondition passes the
handler's truthiness guard. -/
theorem validPayload_truthy {p : Payload} (hp : validPayload p = true) :
    idTruthy p.id = true ∧ nameTruthy p.first_name = true := by
  rcases p with ⟨pid, _, pfn, _⟩
  cases pid with
  | none => simp [validPayload] at hp
  | some n =>
    cases pfn with
    | none => simp [validPayload] at hp
    | some s =>
      simp only [validPayload, Bool.and_eq_true, decide_eq_true_eq] at hp
      refine ⟨?_, hp.2⟩
      simp only [idTruthy, bne_iff_ne, ne_eq]
      omega

/-- C1: for every valid payload (id present and positive, firstName present
and non-empty), running `findOrCreate` twice in sequence (with non-decreasing
`NOW()` timestamps) returns two success records equal in every field except
`updated_at`, with `updated_at` non-decreasing; and the table after the second
call equals the table after the first with only that row's `updated_at`
advanced. -/
theorem c1_idempotent_upsert (db : Db) (p : Payload) (t1 t2 : Nat)
    (hp : validPayload p = true) (ht : t1 ≤ t2) :
    ∃ s1 r1 s2 r2,
      (findOrCreate db p t1).resp = .ok s1 r1 ∧
      (findOrCreate (findOrCreate db p t1).db p t2).resp = .ok s2 r2 ∧
      r2 = { r1 with updated_at := t2 } ∧
      r1.updated_at ≤ r2.updated_at ∧
      (findOrCreate (findOrCreate db p t1).db p t2).db =
        (findOrCreate db p t1).db.map
          (fun q => if q.id == payloadId p then { q with updated_at := t2 } else q) := by
  obtain ⟨hid, hname⟩ := validPayload_truthy hp
  set n := payloadId p with hn
  cases hcase : lookupUser db n with
  | some r =>
    refine ⟨200, applyUpdate r p t1, 200, { applyUpdate r p t1 with updated_at := t2 },
      ?_, ?_, rfl, by simp [applyUpdate]; omega, ?_⟩
    · simp [findOrCreate, hid, hname, ← hn, hcase]
    · simp only [findOrCreate, hid, hname, Bool.not_true, Bool.or_self, Bool.false_eq_true,
        if_false, ← hn, hcase, lookupUser_map_update, Option.map_some]
      simp [applyUpdate_applyUpdate]
    · simp only [findOrCreate, hid, hname, Bool.not_true, Bool.or_self, Bool.false_eq_true,
        if_false, ← hn, hcase, lookupUser_map_update, Option.map_some]
      rw [List.map_map, List.map_map]
      refine List.map_congr_left (fun q _ => ?_)
      by_cases hq : q.id = n
      · simp [Function.comp, hq, applyUpdate_id, applyUpdate_applyUpdate]
      · simp [Function.comp, hq]
  | none =>
    have hlook1 : lookupUser (db ++ [newRecord p t1]) n = some (newRecord p t1) := by
      simp only [lookupUser] at hcase ⊢
      rw [List.find?_append, hcase, Option.none_or]
      exact List.find?_cons_of_pos _ (by simp [newRecord_id, ← hn])
    refine ⟨201, newRecord p t1, 200, { newRecord p t1 with updated_at := t2 },
      ?_, ?_, rfl, by simp [newRecord]; omega, ?_⟩
    · simp [findOrCreate, hid, hname, ← hn, hcase]
    · simp only [findOrCreate, hid, hname, Bool.not_true, Bool.or_self, Bool.false_eq_true,
        if_false, ← hn, hcase, hlook1]
      simp [applyUpdate_newRecord]
    · simp only [findOrCreate, hid, hname, Bool.not_true, Bool.or_self, Bool.false_eq_true,
        if_false, ← hn, hcase, hlook1]
      rw [List.map_append, map_update_of_none db n _ hcase,
        List.map_append, map_update_of_none db n _ hcase]
      have hb : ((newRecord p t1).id == n) = true := by simp [newRecord_id, ← hn]
      simp [hb, applyUpdate_newRecord]

/-- A concrete valid payload: the spec's end-to-end example user. -/
def p42 : Payload :=
  { id := some 42, is_bot := some false, first_name := some "Ana", last_name := none
    username := none, language_code := none, is_premium := none
    added_to_attachment_menu := none, can_join_groups := none
    can_read_all_group_messages := none, supports_inline_queries := none }

/-- Witness for C1 at the concrete payload `p42`, empty table, times 0 and 1. -/
theorem c1_idempotent_upsert_witness :
    ∃ s1 r1 s2 r2,
      (findOrCreate [] p42 0).resp = .ok s1 r1 ∧
      (findOrCreate (findOrCreate [] p42 0).db p42 1).resp = .ok s2 r2 ∧
      r2 = { r1 with updated_at := 1 } ∧
      r1.updated_at ≤ r2.updated_at ∧
      (findOrCreate (findOrCreate [] p42 0).db p42 1).db =
        (findOrCreate [] p42 0).db.map
          (fun q => if q.id == payloadId p42 then { q with updated_at := 1 } else q) :=
  c1_idempotent_upsert [] p42 0 1 (by decide) (by decide)

/-- C3: the first `findOrCreate` for an id not yet stored responds 201 with
the freshly created row (`created_at = updated_at = NOW()`); every call for an
already-stored id responds 200 with the updated row whose `created_at` equals
the stored one — the two outcomes carry distinct success status codes and both
return the row as stored after the call. -/
theorem c3_created_vs_updated (db : Db) (p : Payload) (t : Nat)
    (hp : validPayload p = true) :
    (lookupUser db (payloadId p) = none →
      ∃ rec, (findOrCreate db p t).resp = .ok 201 rec ∧
        rec.created_at = t ∧ rec.updated_at = t ∧
        lookupUser (findOrCreate db p t).db (payloadId p) = some rec) ∧
    (∀ r, lookupUser db (payloadId p) = some r →
      ∃ rec, (findOrCreate db p t).resp = .ok 200 rec ∧
        rec.created_at = r.created_at ∧
        lookupUser (findOrCreate db p t).db (payloadId p) = some rec) := by
  obtain ⟨hid, hname⟩ := validPayload_truthy hp
  constructor
  · intro hnone
    refine ⟨newRecord p t, ?_, rfl, rfl, ?_⟩
    · simp [findOrCreate, hid, hname, hnone]
    · simp only [findOrCreate, hid, hname, Bool.not_true, Bool.or_self, Bool.false_eq_true,
        if_false, hnone]
      simp only [lookupUser] at hnone ⊢
      rw [List.find?_append, hnone, Option.none_or]
      exact List.find?_cons_of_pos _ (by simp [newRecord_id])
  · intro r hsome
    refine ⟨applyUpdate r p t, ?_, rfl, ?_⟩
    · simp [findOrCreate, hid, hname, hsome]
    · simp only [findOrCreate, hid, hname, Bool.not_true, Bool.or_self, Bool.false_eq_true,
        if_false, hsome, lookupUser_map_update]
      simp [hsome]

/-- Witness for C3: a fresh table gives a 201 with the stored row; a table
already holding the row gives a 200 preserving `created_at`. -/
theorem c3_created_vs_updated_witness :
    (∃ rec, (findOrCreate [] p42 0).resp = .ok 201 rec ∧
       rec.created_at = 0 ∧ rec.updated_at = 0 ∧
       lookupUser (findOrCreate [] p42 0).db (payloadId p42) = some rec) ∧
    (∃ rec, (findOrCreate [newRecord p42 0] p42 5).resp = .ok 200 rec ∧
       rec.created_at = (newRecord p42 0).created_at ∧
       lookupUser (findOrCreate [newRecord p42 0] p42 5).db (payloadId p42) = some rec) :=
  ⟨(c3_created_vs_updated [] p42 0 (by decide)).1 (by decide),
   (c3_created_vs_updated [newRecord p42 0] p42 5 (by decide)).2 (newRecord p42 0) (by decide)⟩

/-- C5: updating an existing row overwrites every platform-sourced field from
the payload and sets `updated_at = NOW()`, while `preferred_language` and
`created_at` are left unchanged; in particular a stored `preferred_language`
of `"ar"` is still reported as `"ar"`. -/
theorem c5_preference_preserved (db : Db) (p : Payload) (t : Nat) (r : UserRecord)
    (hp : validPayload p = true) (hr : lookupUser db (payloadId p) = some r) :
    ∃ rec, (findOrCreate db p t).resp = .ok 200 rec ∧
      rec.preferred_language = r.preferred_language ∧
      rec.created_at = r.created_at ∧
      rec.updated_at = t ∧
      rec.is_bot = p.is_bot ∧
      rec.first_name = p.first_name.getD "" ∧
      rec.last_name = p.last_name ∧
      rec.username = p.username ∧
      rec.language_code = p.language_code ∧
      rec.is_premium = p.is_premium ∧
      rec.added_to_attachment_menu = p.added_to_attachment_menu ∧
      rec.can_join_groups = p.can_join_groups ∧
      rec.can_read_all_group_messages = p.can_read_all_group_messages ∧
      rec.supports_inline_queries = p.supports_inline_queries ∧
      (r.preferred_language = "ar" → rec.preferred_language = "ar") ∧
      lookupUser (findOrCreate db p t).db (payloadId p) = some rec := by
  obtain ⟨hid, hname⟩ := validPayload_truthy hp
  refine ⟨applyUpdate r p t, ?_, rfl, rfl, rfl, rfl, rfl, rfl, rfl, rfl, rfl, rfl, rfl,
    rfl, rfl, (fun h => h), ?_⟩
  · simp [findOrCreate, hid, hname, hr]
  · simp only [findOrCreate, hid, hname, Bool.not_true, Bool.or_self, Bool.false_eq_true,
      if_false, hr, lookupUser_map_update]
    simp [hr]

/-- A stored row whose preference was previously set to Arabic. -/
def rowAr : UserRecord := { newRecord p42 0 with preferred_language := "ar" }

/-- Witness for C5 on a table holding an `"ar"`-preference row. -/
theorem c5_preference_preserved_witness :
    ∃ rec, (findOrCreate [rowAr] p42 7).resp = .ok 200 rec ∧
      rec.preferred_language = rowAr.preferred_language ∧
      rec.created_at = rowAr.created_at ∧
      rec.updated_at = 7 ∧
      rec.is_bot = p42.is_bot ∧
      rec.first_name = p42.first_name.getD "" ∧
      rec.last_name = p42.last_name ∧
      rec.username = p42.username ∧
      rec.language_code = p42.language_code ∧
      rec.is_premium = p42.is_premium ∧
      rec.added_to_attachment_menu = p42.added_to_attachment_menu ∧
      rec.can_join_groups = p42.can_join_groups ∧
      rec.can_read_all_group_messages = p42.can_read_all_group_messages ∧
      rec.supports_inline_queries = p42.supports_inline_queries ∧
      (rowAr.preferred_language = "ar" → rec.preferred_language = "ar") ∧
      lookupUser (findOrCreate [rowAr] p42 7).db (payloadId p42) = some rec :=
  c5_preference_preserved [rowAr] p42 7 rowAr (by decide) (by decide)

/-- A payload with a negative id: JavaScript `!id` is false for `-5`, so the
handler's guard lets it through. -/
def pNegId : Payload := { p42 with id := some (-5) }

/-- C4 counterexample: the claim says every payload whose id is not a positive
integer is rejected with a 400 validation error and no storage write; but the
guard only checks truthiness, so `id = -5` passes validation, reaches storage,
and is inserted (201, one write, one new row). -/
theorem c4_counterexample :
    (findOrCreate [] pNegId 0).resp = .ok 201 (newRecord pNegId 0) ∧
    (findOrCreate [] pNegId 0).writes = 1 ∧
    (findOrCreate [] pNegId 0).db = [newRecord pNegId 0] := by
  refine ⟨rfl, rfl, rfl⟩

/-- C4 (amended): every payload whose `id` is absent or `0`, or whose
`first_name` is absent or empty, is rejected with the 400 validation envelope
before any storage access: the table is unchanged and no read or write is
issued. -/
theorem c4_validation_boundary (db : Db) (p : Payload) (t : Nat)
    (h : (idTruthy p.id && nameTruthy p.first_name) = false) :
    (findOrCreate db p t).resp =
      .validationError 400 "Missing required fields: id and first_name are required" ∧
    (findOrCreate db p t).db = db ∧
    (findOrCreate db p t).reads = 0 ∧
    (findOrCreate db p t).writes = 0 := by
  have hg : (!(idTruthy p.id) || !(nameTruthy p.first_name)) = true := by
    cases hi : idTruthy p.id <;> cases hn : nameTruthy p.first_name <;> simp_all
  simp [findOrCreate, hg]

/-- The empty payload `{}`. -/
def pEmpty : Payload :=
  { id := none, is_bot := none, first_name := none, last_name := none
    username := none, language_code := none, is_premium := none
    added_to_attachment_menu := none, can_join_groups := none
    can_read_all_group_messages := none, supports_inline_queries := none }

/-- Witness for C4 (amended): `findOrCreate({})` is rejected with 400 and the
table is untouched. -/
theorem c4_validation_boundary_witness :
    (findOrCreate [] pEmpty 0).resp =
      .validationError 400 "Missing required fields: id and first_name are required" ∧
    (findOrCreate [] pEmpty 0).db = [] ∧
    (findOrCreate [] pEmpty 0).reads = 0 ∧
    (findOrCreate [] pEmpty 0).writes = 0 :=
  c4_validation_boundary [] pEmpty 0 (by decide)

/-- C2: the handler's check-then-insert is not atomic. Interleaving two
concurrent `findOrCreate` calls with the identical valid payload as
SELECT₀, SELECT₁, INSERT₀, INSERT₁ makes both SELECTs miss; call 0 inserts
and gets 201, call 1's INSERT then hits the `id` primary-key uniqueness
constraint and surfaces as a 500 internal error — a failed duplicate insert,
corresponding to no serial execution (second conjunct: under the serialized
schedule both calls succeed, 201 then 200). The table itself ends with
exactly one row for the id in both schedules. -/
theorem c2_concurrent_duplicate_insert :
    (let st := runSched p42 5 [false, true, false, true]
        { db := [], ph0 := .start, ph1 := .start }
     st.ph0 = .done (.ok 201 (newRecord p42 5)) ∧
     st.ph1 = .done (.internalError 500) ∧
     countId st.db 42 = 1) ∧
    (let st := runSched p42 5 [false, false, true, true]
        { db := [], ph0 := .start, ph1 := .start }
     st.ph0 = .done (.ok 201 (newRecord p42 5)) ∧
     st.ph1 = .done (.ok 200 (newRecord p42 5)) ∧
     countId st.db 42 = 1) := by
  refine ⟨⟨rfl, rfl, rfl⟩, ⟨rfl, rfl, rfl⟩⟩

/-- C6: a well-shaped language code outside the supported set gets the 404
unsupported-language envelope whose supported list is exactly
`{en, ar, fa, ru, de, zh}`; a code failing the 2-lowercase-letter shape gets
the 400 invalid-language-code envelope instead. -/
theorem c6_locale_fallback_closure (fileOf : Catalog) (lang : String) (rs : Nat) :
    (isValidLangShape lang = true → supportedLanguages.contains lang = false →
      (getTranslations fileOf lang rs).1 =
        .unsupported 404 "Language not supported" ["en", "ar", "fa", "ru", "de", "zh"]) ∧
    (isValidLangShape lang = false →
      (getTranslations fileOf lang rs).1 =
        .invalidCode 400 "Invalid language code"
          "Language code must be a 2-letter ISO code") := by
  constructor
  · intro hs hns
    have h1 : (!(isValidLangShape lang)) = false := by rw [hs]; rfl
    have h2 : (!(supportedLanguages.contains lang)) = true := by rw [hns]; rfl
    simp only [getTranslations]
    rw [h1, h2]
    simp [supportedLanguages]
  · intro hs
    have h1 : (!(isValidLangShape lang)) = true := by rw [hs]; rfl
    simp only [getTranslations]
    rw [h1]
    simp

/-- Witness for C6: `"xx"` is well-shaped but unsupported (404 with the exact
list); `"a1"` fails the shape test (400). -/
theorem c6_locale_fallback_closure_witness :
    ((getTranslations (fun _ => .missing) "xx" 0).1 =
      .unsupported 404 "Language not supported" ["en", "ar", "fa", "ru", "de", "zh"]) ∧
    ((getTranslations (fun _ => .missing) "a1" 0).1 =
      .invalidCode 400 "Invalid language code"
        "Language code must be a 2-letter ISO code") :=
  ⟨(c6_locale_fallback_closure (fun _ => .missing) "xx" 0).1 (by decide) (by decide),
   (c6_locale_fallback_closure (fun _ => .missing) "a1" 0).2 (by decide)⟩

/-- A catalog holding only a well-formed English bundle. -/
def enOnlyCatalog : Catalog :=
  fun s => if s = "en" then .good [("welcome_message", "Welcome!")] else .missing

/-- C7 counterexample: the claim says a bundle is read from storage once and
then served from a process-lifetime cache; but the handler calls
`fs.readFile` on every request, so a second resolve of `"en"` performs a
second storage read (the read counter reaches 2, not 1). -/
theorem c7_counterexample :
    (getTranslations enOnlyCatalog "en" 0).1 = .ok 200 [("welcome_message", "Welcome!")] ∧
    (getTranslations enOnlyCatalog "en" 0).2 = 1 ∧
    (getTranslations enOnlyCatalog "en"
      ((getTranslations enOnlyCatalog "en" 0).2)).1 =
        .ok 200 [("welcome_message", "Welcome!")] ∧
    (getTranslations enOnlyCatalog "en"
      ((getTranslations enOnlyCatalog "en" 0).2)).2 ≠
      (getTranslations enOnlyCatalog "en" 0).2 := by
  refine ⟨rfl, rfl, rfl, by decide⟩

/-- C7 (amended): there is no in-process cache — every request for a
supported, well-shaped code performs one fresh `fs.readFile` (the process
read counter always increments), and the response reflects the file content
as read on that request. -/
theorem c7_no_cache_fresh_read (fileOf : Catalog) (lang : String) (rs : Nat) (b : Bundle)
    (hs : isValidLangShape lang = true) (hm : supportedLanguages.contains lang = true)
    (hb : fileOf lang = .good b) :
    (getTranslations fileOf lang rs).1 = .ok 200 b ∧
    (getTranslations fileOf lang rs).2 = rs + 1 := by
  have h1 : (!(isValidLangShape lang)) = false := by rw [hs]; rfl
  have h2 : (!(supportedLanguages.contains lang)) = false := by rw [hm]; rfl
  simp only [getTranslations]
  rw [h1, h2, hb]
  simp

/-- Witness for C7 (amended): the second request for `"en"` (read counter
already at 1) reads the file again, reaching 2. -/
theorem c7_no_cache_fresh_read_witness :
    (getTranslations enOnlyCatalog "en" 1).1 =
      .ok 200 [("welcome_message", "Welcome!")] ∧
    (getTranslations enOnlyCatalog "en" 1).2 = 1 + 1 :=
  c7_no_cache_fresh_read enOnlyCatalog "en" 1 [("welcome_message", "Welcome!")]
    (by decide) (by decide) (by decide)

/-- C9: a supported code whose file is unparsable gets the 500
invalid-translation-file-format envelope (the handler catches the parse error
and returns a response — it does not crash), and the outcome for any code
depends only on that code's own file: two catalogs agreeing at a code give
identical responses there, so corruption of one code cannot affect another. -/
theorem c9_catalog_corrupt_isolated (f g : Catalog) (lang : String) (rs : Nat)
    (hs : isValidLangShape lang = true) (hm : supportedLanguages.contains lang = true) :
    (f lang = .malformed →
      (getTranslations f lang rs).1 =
        .serviceError 500 "Translation service error"
          "Invalid translation file format") ∧
    (f lang = g lang → getTranslations f lang rs = getTranslations g lang rs) := by
  have h1 : (!(isValidLangShape lang)) = false := by rw [hs]; rfl
  have h2 : (!(supportedLanguages.contains lang)) = false := by rw [hm]; rfl
  constructor
  · intro hb
    simp only [getTranslations]
    rw [h1, h2, hb]
    simp
  · intro hfg
    simp only [getTranslations]
    rw [hfg]

/-- A catalog whose English file is corrupt but whose other files are fine. -/
def corruptEnCatalog : Catalog :=
  fun s => if s = "en" then .malformed else .good [("k", "v")]

/-- A catalog with every file well-formed. -/
def healthyCatalog : Catalog := fun _ => .good [("k", "v")]

/-- Witness for C9: the corrupt `"en"` file yields the 500 envelope, while
`"ar"` responds exactly as it would under a fully healthy catalog. -/
theorem c9_catalog_corrupt_isolated_witness :
    ((getTranslations corruptEnCatalog "en" 0).1 =
      .serviceError 500 "Translation service error"
        "Invalid translation file format") ∧
    (getTranslations corruptEnCatalog "ar" 0 = getTranslations healthyCatalog "ar" 0) :=
  ⟨(c9_catalog_corrupt_isolated corruptEnCatalog healthyCatalog "en" 0
      (by decide) (by decide)).1 (by decide),
   (c9_catalog_corrupt_isolated corruptEnCatalog healthyCatalog "ar" 0
      (by decide) (by decide)).2 (by decide)⟩

/-- A Gateway whose translation endpoint serves, for every code, a bundle
carrying a backend-authored generic error text. -/
def gwErrGeneric : String → ApiResult Bundle :=
  fun _ => .ok [("error_generic", "Backend says oops")]

/-- C8 counterexample: the claim says every Gateway failure ends in the
built-in fallback message embedded in the adapter itself; but when
`findOrCreateUser` fails while the translation endpoint still answers,
`handleBotError` replies with the Gateway-served `error_generic` text, which
is not the adapter's built-in message. -/
theorem c8_counterexample :
    startHandler .fail gwErrGeneric = "Backend says oops" ∧
    "Backend says oops" ≠ builtinFallback := by
  refine ⟨rfl, by decide⟩

/-- C8 (amended): on any failure of a Gateway call the `/start` handler
replies with a coherent fallback — the Gateway's English `error_generic`
message when that secondary fetch succeeds with a non-empty value, and
otherwise the built-in default embedded in the adapter — never the raw
failure; in particular when the Gateway is entirely unreachable the reply is
exactly the built-in default. -/
theorem c8_adapter_degradation (foc : ApiResult (Option String))
    (gt : String → ApiResult Bundle)
    (h : foc = .fail ∨ ∃ pl, foc = .ok pl ∧ gt (jsOr pl "en") = .fail) :
    (startHandler foc gt = builtinFallback ∨
      ∃ t s, gt "en" = .ok t ∧ bundleGet t "error_generic" = some s ∧ s ≠ "" ∧
        startHandler foc gt = s) ∧
    ((∀ l, gt l = .fail) → startHandler foc gt = builtinFallback) := by
  have hmain : startHandler foc gt = handleBotError gt := by
    rcases h with h | ⟨pl, hfoc, hgt⟩
    · rw [h]
      rfl
    · rw [hfoc]
      simp [startHandler, hgt]
  rw [hmain]
  constructor
  · cases hgt2 : gt "en" with
    | fail =>
      left
      simp [handleBotError, hgt2]
    | ok t =>
      cases hbg : bundleGet t "error_generic" with
      | none =>
        left
        simp [handleBotError, hgt2, hbg, jsOr]
      | some s =>
        by_cases hs : s = ""
        · left
          simp [handleBotError, hgt2, hbg, jsOr, hs]
        · right
          exact ⟨t, s, rfl, hbg, hs, by simp [handleBotError, hgt2, hbg, jsOr, hs]⟩
  · intro hall
    simp [handleBotError, hall "en"]

/-- Witness for C8 (amended): the Gateway entirely unreachable — the reply is
the built-in default. -/
theorem c8_adapter_degradation_witness :
    (startHandler .fail (fun _ : String => (ApiResult.fail : ApiResult Bundle)) =
        builtinFallback ∨
      ∃ t s, (fun _ : String => (ApiResult.fail : ApiResult Bundle)) "en" = .ok t ∧
        bundleGet t "error_generic" = some s ∧ s ≠ "" ∧
        startHandler .fail (fun _ : String => (ApiResult.fail : ApiResult Bundle)) = s) ∧
    ((∀ l, (fun _ : String => (ApiResult.fail : ApiResult Bundle)) l = .fail) →
      startHandler .fail (fun _ : String => (ApiResult.fail : ApiResult Bundle)) =
        builtinFallback) :=
  c8_adapter_degradation .fail (fun _ : String => (ApiResult.fail : ApiResult Bundle))
    (Or.inl rfl)

/-- The `details` field of the catch envelope is the raw driver message in
development mode and absent otherwise, on every branch of the code switch. -/
theorem findOrCreateCatch_details (env : String) (e : JsError) :
    (findOrCreateCatch env e).details =
      if env == "development" then some e.message else none := by
  simp only [findOrCreateCatch]
  by_cases h1 : (e.code == some "ECONNREFUSED" || e.code == some "ENOTFOUND") = true
  · simp [h1]
  · by_cases h2 : (e.code == some "42P01") = true
    · simp [h1, h2]
    · simp [h1, h2]

/-- C10: the catch branch of `findOrCreate` attaches raw internal error
detail only outside production (precisely: only when
`NODE_ENV === 'development'`); in production the whole response envelope is
independent of the driver's error message (two errors with the same driver
code give identical bodies), while the error category and the human-readable
message are always non-empty. -/
theorem c10_error_detail_suppression (env : String) (e1 e2 : JsError)
    (hcode : e1.code = e2.code) :
    ((findOrCreateCatch env e1).details ≠ none → env ≠ "production") ∧
    (env = "production" → findOrCreateCatch env e1 = findOrCreateCatch env e2) ∧
    (findOrCreateCatch env e1).error ≠ "" ∧
    (findOrCreateCatch env e1).message ≠ "" := by
  refine ⟨?_, ?_, ?_, ?_⟩
  · intro hd
    rw [findOrCreateCatch_details] at hd
    by_cases hdev : (env == "development") = true
    · have : env = "development" := by simpa using hdev
      subst this
      decide
    · rw [if_neg hdev] at hd
      exact absurd rfl hd
  · intro henv
    subst henv
    simp [findOrCreateCatch, hcode]
  · simp only [findOrCreateCatch]
    by_cases h1 : (e1.code == some "ECONNREFUSED" || e1.code == some "ENOTFOUND") = true
    · simp [h1]
    · by_cases h2 : (e1.code == some "42P01") = true
      · simp [h1, h2]
      · simp [h1, h2]
  · simp only [findOrCreateCatch]
    by_cases h1 : (e1.code == some "ECONNREFUSED" || e1.code == some "ENOTFOUND") = true
    · simp [h1]
    · by_cases h2 : (e1.code == some "42P01") = true
      · simp [h1, h2]
      · simp [h1, h2]

/-- Witness for C10: two distinct driver messages with the same (absent)
driver code, in production mode. -/
theorem c10_error_detail_suppression_witness :
    ((findOrCreateCatch "production" ⟨none, "boom A"⟩).details ≠ none →
      "production" ≠ "production") ∧
    ("production" = "production" →
      findOrCreateCatch "production" ⟨none, "boom A"⟩ =
        findOrCreateCatch "production" ⟨none, "boom B"⟩) ∧
    (findOrCreateCatch "production" ⟨none, "boom A"⟩).error ≠ "" ∧
    (findOrCreateCatch "production" ⟨none, "boom A"⟩).message ≠ "" :=
  c10_error_detail_suppression "production" ⟨none, "boom A"⟩ ⟨none, "boom B"⟩ rfl

end Giftunity
